import Mathlib

/-!
Verification development for `mqtt_io/server_trio.py`: a shallow embedding of
the MQTT-IO server core (connection-option derivation, the startup sequence,
the message fan-out loop, the signal handler and the shutdown sequence) as
executable Lean definitions, together with theorems settling the behavioural
claims made about it.

Conventions of the embedding:
* byte strings (`bytes`) are `List Nat`, every element `< 256`;
* machine 32-bit words are `Nat` taken modulo `2 ^ 32` where overflow matters;
* each side effect the server performs on the broker client, the nursery or an
  I/O module is an `Effect` constructor, and a run of a piece of the server is
  the list of effects it performs, in order;
* fallible steps (a module's `init` or `cleanup` raising) are modelled by
  Boolean-valued behaviour parameters, and an exception aborts the surrounding
  sequence exactly where the Python code has no handler for it.
-/

namespace MqttIoServer

/-! ## UTF-8 encoding (`str.encode("utf8")`) -/

/-- UTF-8 encoding of a single Unicode code point, as a list of bytes. -/
def utf8EncodeCp (c : Nat) : List Nat :=
  if c < 128 then [c]
  else if c < 2048 then [192 + c / 64, 128 + c % 64]
  else if c < 65536 then [224 + c / 4096, 128 + c / 64 % 64, 128 + c % 64]
  else [240 + c / 262144, 128 + c / 4096 % 64, 128 + c / 64 % 64, 128 + c % 64]

/-- Python's `s.encode("utf8")`: the UTF-8 byte sequence of a string. -/
def utf8Encode (s : String) : List Nat :=
  s.data.flatMap fun ch => utf8EncodeCp ch.toNat

/-! ## SHA-1 (`hashlib.sha1(...).hexdigest()`)

A direct implementation of FIPS 180-1 over `Nat`, used by the client-id
derivation in `_init_mqtt_config`. -/

/-- The value `2 ^ 32`, the word modulus of SHA-1. -/
def w32 : Nat := 4294967296

/-- Rotate a 32-bit word (a `Nat < 2 ^ 32`) left by `k` bits. -/
def rotl (k x : Nat) : Nat :=
  (x * 2 ^ k) % w32 + x % w32 / 2 ^ (32 - k)

/-- Big-endian byte decomposition of `v` into `n` bytes. -/
def beBytes : Nat → Nat → List Nat
  | 0, _ => []
  | n + 1, v => beBytes n (v / 256) ++ [v % 256]

/-- SHA-1 message padding: append `0x80`, zeros to 56 mod 64 bytes, then the
bit length as 8 big-endian bytes. -/
def sha1pad (msg : List Nat) : List Nat :=
  msg ++ [128] ++ List.replicate ((119 - msg.length % 64) % 64) 0
      ++ beBytes 8 (msg.length * 8)

/-- Group a byte list into big-endian 32-bit words (dropping any ragged tail;
after `sha1pad` there is none). -/
def bytesToWords : List Nat → List Nat
  | a :: b :: c :: d :: rest => (((a * 256 + b) * 256 + c) * 256 + d) :: bytesToWords rest
  | _ => []

/-- SHA-1 round function `f_t`. -/
def sha1f (t b c d : Nat) : Nat :=
  if t < 20 then Nat.lor (Nat.land b c) (Nat.land (w32 - 1 - b) d)
  else if t < 40 then Nat.xor (Nat.xor b c) d
  else if t < 60 then Nat.lor (Nat.lor (Nat.land b c) (Nat.land b d)) (Nat.land c d)
  else Nat.xor (Nat.xor b c) d

/-- SHA-1 round constant `K_t`. -/
def sha1k (t : Nat) : Nat :=
  if t < 20 then 1518500249
  else if t < 40 then 1859775393
  else if t < 60 then 2400959708
  else 3395469782

/-- Extend the 16 words of a chunk to the 80-entry message schedule. -/
def sha1schedule (ws : List Nat) : Array Nat :=
  (List.range 64).foldl
    (fun a i =>
      a.push (rotl 1 (Nat.xor (Nat.xor (a.getD (i + 13) 0) (a.getD (i + 8) 0))
        (Nat.xor (a.getD (i + 2) 0) (a.getD i 0)))))
    ws.toArray

/-- Compress one 16-word chunk into the running hash state. -/
def sha1chunk (h : Nat × Nat × Nat × Nat × Nat) (ws : List Nat) :
    Nat × Nat × Nat × Nat × Nat :=
  let w := sha1schedule ws
  let s := (List.range 80).foldl
    (fun (st : Nat × Nat × Nat × Nat × Nat) t =>
      let tmp := (rotl 5 st.1 + sha1f t st.2.1 st.2.2.1 st.2.2.2.1 + st.2.2.2.2
        + sha1k t + w.getD t 0) % w32
      (tmp, st.1, rotl 30 st.2.1, st.2.2.1, st.2.2.2.1))
    h
  ((h.1 + s.1) % w32, (h.2.1 + s.2.1) % w32, (h.2.2.1 + s.2.2.1) % w32,
    (h.2.2.2.1 + s.2.2.2.1) % w32, (h.2.2.2.2 + s.2.2.2.2) % w32)

/-- Fold the compression function over the 16-word chunks of a padded message. -/
def sha1chunks (h : Nat × Nat × Nat × Nat × Nat) : List Nat → Nat × Nat × Nat × Nat × Nat
  | w0 :: w1 :: w2 :: w3 :: w4 :: w5 :: w6 :: w7 :: w8 :: w9 :: w10 :: w11 :: w12
      :: w13 :: w14 :: w15 :: rest =>
    sha1chunks (sha1chunk h [w0, w1, w2, w3, w4, w5, w6, w7, w8, w9, w10, w11, w12,
      w13, w14, w15]) rest
  | _ => h

/-- Lowercase hexadecimal digit. -/
def hexDigit (n : Nat) : Char :=
  if n < 10 then Char.ofNat (48 + n) else Char.ofNat (87 + n)

/-- A 32-bit word as 8 lowercase hex characters. -/
def hexWord (v : Nat) : String :=
  String.mk ((List.range 8).map fun i => hexDigit (v / 16 ^ (7 - i) % 16))

/-- Model of `hashlib.sha1(bs).hexdigest()`: the 40-character lowercase hex digest. -/
def sha1hex (bs : List Nat) : String :=
  let h := sha1chunks (1732584193, 4023233417, 2562383102, 271733878, 3285377520)
    (bytesToWords (sha1pad bs))
  hexWord h.1 ++ hexWord h.2.1 ++ hexWord h.2.2.1 ++ hexWord h.2.2.2.1
    ++ hexWord h.2.2.2.2

/-! ## Configuration and connection options (`_init_mqtt_config`) -/

/-- The `tls` sub-mapping of the `mqtt` configuration section. -/
structure TLSConfig where
  enabled : Bool
  caCerts : Option String
  certfile : Option String
  keyfile : Option String
  ciphers : Option String
deriving DecidableEq, Repr

/-- The `mqtt` section of the configuration (the keys `_init_mqtt_config` and
the server read).  `clientId` models the Python `Optional[str]` field
(`none` = configured as `None`); `haDiscovery` models whether the key
`"ha_discovery"` is present. -/
structure ConfigMqtt where
  host : String
  port : Nat
  user : Option String
  password : Option String
  clientId : Option String
  topicPref : String
  statusTopic : String
  statusPayloadRunning : String
  statusPayloadStopped : String
  statusPayloadDead : String
  keepalive : Nat
  cleanSession : Bool
  tls : Option TLSConfig
  haDiscovery : Bool
deriving DecidableEq, Repr

/-- Model of `MQTTWill(topic, payload, qos, retain)`. -/
structure MQTTWill where
  topic : String
  payload : List Nat
  qos : Nat
  retain : Bool
deriving DecidableEq, Repr

/-- Model of `MQTTTLSOptions(ca_certs, certfile, keyfile, ciphers)`. -/
structure MQTTTLSOptions where
  caCerts : Option String
  certfile : Option String
  keyfile : Option String
  ciphers : Option String
deriving DecidableEq, Repr

/-- Model of `MQTTClientOptions(...)` as constructed by `_init_mqtt_config`. -/
structure MQTTClientOptions where
  hostname : String
  port : Nat
  username : Option String
  password : Option String
  clientId : String
  keepalive : Nat
  cleanSession : Bool
  tlsOptions : Option MQTTTLSOptions
  will : Option MQTTWill
deriving DecidableEq, Repr

/-- Model of `"/".join((topic_prefix, status_topic))`: the status topic. -/
def statusTopicOf (cfg : ConfigMqtt) : String :=
  cfg.topicPref ++ "/" ++ cfg.statusTopic

/-- Model of `MQTTIO._init_mqtt_config`: derive the immutable client options from the
`mqtt` configuration section.  `if not client_id:` treats both `None` and the
empty string as absent; `tls_enabled` mirrors
`config.get("tls", {}).get("enabled")` (falsy when the key is missing). -/
def initMqttConfig (cfg : ConfigMqtt) : MQTTClientOptions :=
  let cid : String :=
    match cfg.clientId with
    | none => "mqtt-io-" ++ sha1hex (utf8Encode cfg.topicPref)
    | some c => if c = "" then "mqtt-io-" ++ sha1hex (utf8Encode cfg.topicPref) else c
  let tlsOpts : Option MQTTTLSOptions :=
    match cfg.tls with
    | some t =>
      if t.enabled then some ⟨t.caCerts, t.certfile, t.keyfile, t.ciphers⟩ else none
    | none => none
  { hostname := cfg.host
    port := cfg.port
    username := cfg.user
    password := cfg.password
    clientId := cid
    keepalive := cfg.keepalive
    cleanSession := cfg.cleanSession
    tlsOptions := tlsOpts
    will := some { topic := statusTopicOf cfg
                   payload := utf8Encode cfg.statusPayloadDead
                   qos := 1
                   retain := true } }

/-! ## The I/O modules and the effect alphabet -/

/-- The three I/O modules, in the order `__init__` registers them:
`self.io_modules = [self.gpio, self.sensor, self.stream]` (the classes
`GPIO` (digital I/O), `SensorIO`, `StreamIO`). -/
inductive Module3 where
  | digital
  | sensor
  | stream
deriving DecidableEq, Repr

/-- Model of `self.io_modules`, in registration order. -/
def ioModules : List Module3 := [Module3.digital, Module3.sensor, Module3.stream]

/-- One observable side effect of the server on the broker client, the
nursery, or an I/O module.  A run of a piece of the server is a
`List Effect`, in the order the Python statements execute. -/
inductive Effect where
  /-- Models `self.mqtt.publish(topic, payload, qos=qos, retain=retain)` -/
  | publish (topic : String) (payload : List Nat) (qos : Nat) (retain : Bool)
  /-- Models `await trio.to_thread.run_sync(msg_info.wait_for_publish)` -/
  | waitForPublish
  /-- Models `self.mqtt.disconnect()` -/
  | disconnectCall
  /-- Models `await self.mqtt.disconnect_event.wait()` -/
  | waitDisconnectEvent
  /-- Models `self.nursery.cancel_scope.cancel()` -/
  | cancelMainScope
  /-- Models `await trio.to_thread.run_sync(io_module.cleanup)` -/
  | cleanupCall (m : Module3)
  /-- Models `self._trio_token = trio.lowlevel.current_trio_token()` -/
  | setTrioToken
  /-- Models `await nursery.start(self.handle_signals)` returned (rendezvous) -/
  | startSignalWatcher
  /-- Models `await nursery.start(self.event_bus.run)` returned (rendezvous) -/
  | startEventBus
  /-- Models `AnyIOMQTTClient(nursery, dict(client_id=..., clean_session=...))` -/
  | constructClient (clientId : String) (cleanSession : Bool)
  /-- Models `self._mqtt.enable_logger(...)` -/
  | enableLogger
  /-- Models `client.tls_set_context(...)` -/
  | tlsSetContext
  /-- Models `client.username_pw_set(user, password)` -/
  | usernamePwSet (user : String) (pw : Option String)
  /-- Models `client.connect(hostname, port, keepalive)` -/
  | connectCall (host : String) (port : Nat) (keepalive : Nat)
  /-- Models `client.will_set(topic, payload, qos, retain)` -/
  | willSetCall (topic : String) (payload : List Nat) (qos : Nat) (retain : Bool)
  /-- Models `nursery.start_soon(handle_messages, client)` -/
  | spawnHandleMessages
  /-- Models `self._ha_discovery_announce(client)` -/
  | haDiscoveryAnnounce
  /-- Models `task_status.started()` -/
  | taskStarted
  /-- Models `await io_module.init()` -/
  | initCall (m : Module3)
  /-- Models `self.mqtt.set_connect_message(topic, payload, qos=1, retain=True)` -/
  | setConnectMessage (topic : String) (payload : List Nat) (qos : Nat) (retain : Bool)
  /-- Models `self.nursery.start_soon(io_module.handle_mqtt_msg, msg.topic, msg.payload)` -/
  | dispatchSpawn (m : Module3) (topic : String) (payload : List Nat)
deriving DecidableEq, Repr

/-! ## `MQTTIO.shutdown` (lines 75–89)

The body is a straight-line sequence of calls and awaits with no exception
handler anywhere in it, and it always runs inside the main nursery's cancel
scope (its only caller is `handle_signals`, started in the main nursery).
Trio semantics that matter here: every `await` of a Trio operation passes a
cancellation checkpoint first — in particular `trio.to_thread.run_sync`
calls `checkpoint_if_cancelled()` before starting the worker thread — so
once `self.nursery.cancel_scope.cancel()` (line 86) has cancelled the very
scope the body runs in, the next await raises `trio.Cancelled` before
performing its operation.  The model therefore threads the scope's
cancellation flag through the body and aborts at the first checkpoint taken
while cancelled. -/

/-- One statement of an async body run inside the main scope: a synchronous
call (no checkpoint), an `await` of a Trio operation (a cancellation
checkpoint followed by the operation), or the synchronous cancellation of
the enclosing scope itself. -/
inductive Stmt where
  /-- Models a synchronous call such as `self.mqtt.publish(...)` or
  `self.mqtt.disconnect()`: performs its effect, no checkpoint. -/
  | sync (e : Effect)
  /-- Models an `await` such as `await trio.to_thread.run_sync(...)` or
  `await self.mqtt.disconnect_event.wait()`: a cancellation checkpoint, then
  the awaited operation. -/
  | awaitOp (e : Effect)
  /-- Models `self.nursery.cancel_scope.cancel()`: performs the cancel
  effect and marks the enclosing scope cancelled. -/
  | cancelOwnScope
deriving DecidableEq, Repr

/-- Run a straight-line async body inside the main scope, starting from the
given cancellation state of that scope.  A `sync` statement always performs
its effect; an `awaitOp` first passes the checkpoint — if the scope is
already cancelled it raises `Cancelled`, performing nothing further — and
otherwise performs the awaited operation; `cancelOwnScope` performs the
cancel effect and sets the flag.  Returns the effects performed and whether
the body was aborted by `Cancelled`. -/
def runBody : List Stmt → Bool → List Effect × Bool
  | [], _ => ([], false)
  | Stmt.sync e :: rest, c =>
    let r := runBody rest c
    (e :: r.1, r.2)
  | Stmt.awaitOp e :: rest, c =>
    if c then ([], true)
    else
      let r := runBody rest c
      (e :: r.1, r.2)
  | Stmt.cancelOwnScope :: rest, _ =>
    let r := runBody rest true
    (Effect.cancelMainScope :: r.1, r.2)

/-- The statements of `shutdown`, in source order: the "stopped" publish
(sync), `await ... wait_for_publish` (checkpointed), `disconnect()` (sync),
`await disconnect_event.wait()` (checkpointed), the cancel of the main
scope, then one `await trio.to_thread.run_sync(io_module.cleanup)` per
module in registration order (each checkpointed before the cleanup is
invoked; the preceding `_LOG.debug` is not a modelled effect). -/
def shutdownBody (cfg : ConfigMqtt) : List Stmt :=
  [Stmt.sync
      (Effect.publish (statusTopicOf cfg) (utf8Encode cfg.statusPayloadStopped) 1 true),
   Stmt.awaitOp Effect.waitForPublish,
   Stmt.sync Effect.disconnectCall,
   Stmt.awaitOp Effect.waitDisconnectEvent,
   Stmt.cancelOwnScope]
  ++ ioModules.map (fun m => Stmt.awaitOp (Effect.cleanupCall m))

/-- The five broker/nursery effects of `shutdown` that precede the cleanup
loop, in statement order. -/
def shutdownPre (cfg : ConfigMqtt) : List Effect :=
  [Effect.publish (statusTopicOf cfg) (utf8Encode cfg.statusPayloadStopped) 1 true,
   Effect.waitForPublish,
   Effect.disconnectCall,
   Effect.waitDisconnectEvent,
   Effect.cancelMainScope]

/-- Model of `MQTTIO.shutdown` as invoked by the program (inside the main
scope, not yet cancelled): run its body under the checkpoint semantics.
Returns the effect trace and whether the body was aborted by `Cancelled`
(it is: the first cleanup await checkpoints inside the scope the body just
cancelled, so no module's `cleanup` is ever invoked). -/
def shutdownEffects (cfg : ConfigMqtt) : List Effect × Bool :=
  runBody (shutdownBody cfg) false

/-! ## `MQTTIO.handle_signals` (lines 66–73)

`async for signum in signal_aiter:` is itself a Trio checkpoint: when the
main scope has already been cancelled, the next iteration raises
`Cancelled` instead of processing a further signal.  Moreover an exception
escaping `await self.shutdown()` — such as the `Cancelled` raised at
shutdown's first cleanup await — propagates out of the `async for`, ending
the signal-handler task; either way no later signal is processed. -/

/-- The effect trace of the signal-handler loop on a list of received
signals, starting from the given cancellation state of the main scope. -/
def handleSignalsTrace (cfg : ConfigMqtt) : List Nat → Bool → List Effect
  | [], _ => []
  | _ :: sigs, cancelled =>
    if cancelled then []
    else
      let r := shutdownEffects cfg
      r.1 ++ (if r.2 then [] else handleSignalsTrace cfg sigs true)

/-! ## `MQTTIO.run_mqtt` (lines 120–159) -/

/-- The statement-order effect trace of the body of `run_mqtt` up to
`task_status.started()`: construct the client, enable logging, optionally set
TLS and credentials, `connect`, then `will_set` (the source calls `connect`
first), spawn `handle_messages`, optionally announce discovery, report
started. -/
def runMqttEffects (opts : MQTTClientOptions) (haDisc : Bool) : List Effect :=
  [Effect.constructClient opts.clientId opts.cleanSession, Effect.enableLogger]
    ++ (match opts.tlsOptions with
        | some _ => [Effect.tlsSetContext]
        | none => [])
    ++ (match opts.username with
        | some u => [Effect.usernamePwSet u opts.password]
        | none => [])
    ++ [Effect.connectCall opts.hostname opts.port opts.keepalive]
    ++ (match opts.will with
        | some w => [Effect.willSetCall w.topic w.payload w.qos w.retain]
        | none => [])
    ++ [Effect.spawnHandleMessages]
    ++ (if haDisc then [Effect.haDiscoveryAnnounce] else [])
    ++ [Effect.taskStarted]

/-! ## `MQTTIO.run_async` (lines 91–118) -/

/-- The `await self.gpio.init(); await self.sensor.init(); await
self.stream.init()` sequence, with `ir m = false` meaning module `m`'s
`init` raises.  A raise aborts the sequence (no handler in `run_async`). -/
def initLoop (ir : Module3 → Bool) : List Module3 → List Effect × Bool
  | [] => ([], true)
  | m :: ms =>
    if ir m then
      let r := initLoop ir ms
      (Effect.initCall m :: r.1, r.2)
    else ([Effect.initCall m], false)

/-- Model of `MQTTIO.run_async`: the supervisor's own effect trace — store the Trio
token, start the signal watcher, the event bus and the MQTT task (each a
rendezvous; the MQTT task's effects up to its `started()` happen here), run
the three module `init`s in order, then publish the retained qos-1 "running"
status and register it as the connect message.  Returns the trace and
whether startup completed.  Note there is no `cleanup` call anywhere on the
failure path: the `finally:` block only logs. -/
def runAsyncEffects (cfg : ConfigMqtt) (ir : Module3 → Bool) : List Effect × Bool :=
  let pre := Effect.setTrioToken :: Effect.startSignalWatcher :: Effect.startEventBus
    :: runMqttEffects (initMqttConfig cfg) cfg.haDiscovery
  let r := initLoop ir ioModules
  if r.2 then
    (pre ++ r.1
      ++ [Effect.publish (statusTopicOf cfg) (utf8Encode cfg.statusPayloadRunning) 1 true,
          Effect.setConnectMessage (statusTopicOf cfg)
            (utf8Encode cfg.statusPayloadRunning) 1 true], true)
  else (pre ++ r.1, false)

/-- A whole-process effect trace: the supervisor's startup trace followed by
whatever the signal-handler loop performs on the signals received (the only
caller of `shutdown`). -/
def processEffects (cfg : ConfigMqtt) (ir : Module3 → Bool) (sigs : List Nat) :
    List Effect :=
  (runAsyncEffects cfg ir).1 ++ handleSignalsTrace cfg sigs false

/-! ## `handle_messages` (lines 121–128) -/

/-- An incoming broker message (`msg.topic`, `msg.payload`). -/
structure Msg where
  topic : String
  payload : List Nat
deriving DecidableEq, Repr

/-- The receive loop: `async for msg in client.messages:` then, for each
module in registration order, `self.nursery.start_soon(io_module.handle_mqtt_msg,
msg.topic, msg.payload)` — a spawn, not an await. -/
def handleMessagesTrace : List Msg → List Effect
  | [] => []
  | m :: rest =>
    ioModules.map (fun md => Effect.dispatchSpawn md m.topic m.payload)
      ++ handleMessagesTrace rest

/-! ## The guarded accessors (lines 45–61) -/

/-- The three optional handles `__init__` sets to `None`, generic in the
handle types. -/
structure ServerHandles (ν μ τ : Type) where
  mainNursery : Option ν
  mqttClient : Option μ
  trioTok : Option τ

/-- The `nursery` property: raise `RuntimeError` when uninitialised. -/
def nurseryAcc {ν μ τ : Type} (s : ServerHandles ν μ τ) : Except String ν :=
  match s.mainNursery with
  | none => Except.error "Nursery has not been initialised"
  | some n => Except.ok n

/-- The `mqtt` property: raise `RuntimeError` when uninitialised. -/
def mqttAcc {ν μ τ : Type} (s : ServerHandles ν μ τ) : Except String μ :=
  match s.mqttClient with
  | none => Except.error "MQTT is not initialised"
  | some c => Except.ok c

/-- The `trio_token` property: raise `RuntimeError` when uninitialised. -/
def trioTokenAcc {ν μ τ : Type} (s : ServerHandles ν μ τ) : Except String τ :=
  match s.trioTok with
  | none => Except.error "Server has not yet been run()"
  | some t => Except.ok t

/-! ## The scenario configuration of the spec (§8) -/

/-- The scenario configuration `{topic_prefix: "home", status_topic:
"status", status_payload_running: "run", status_payload_stopped: "stop",
status_payload_dead: "dead", client_id: ""}`, with unremarkable values for
the remaining required keys. -/
def scenarioCfg : ConfigMqtt :=
  { host := "localhost"
    port := 1883
    user := none
    password := none
    clientId := some ""
    topicPref := "home"
    statusTopic := "status"
    statusPayloadRunning := "run"
    statusPayloadStopped := "stop"
    statusPayloadDead := "dead"
    keepalive := 10
    cleanSession := true
    tls := none
    haDiscovery := false }

/-! ## Effect predicates -/

/-- Tests whether an effect is a broker publish. -/
def isPublishEff : Effect → Bool
  | Effect.publish _ _ _ _ => true
  | _ => false

/-- Tests whether an effect is the broker-client `disconnect()` call. -/
def isDisconnectEff : Effect → Bool
  | Effect.disconnectCall => true
  | _ => false

/-- Tests whether an effect is the broker-client `connect(...)` call. -/
def isConnectEff : Effect → Bool
  | Effect.connectCall _ _ _ => true
  | _ => false

/-- Tests whether an effect is the broker-client `will_set(...)` call. -/
def isWillSetEff : Effect → Bool
  | Effect.willSetCall _ _ _ _ => true
  | _ => false

/-- Tests whether an effect is the `cleanup` invocation of module `m`. -/
def isCleanupOf (m : Module3) : Effect → Bool
  | Effect.cleanupCall m2 => m2 == m
  | _ => false

/-- Tests whether an effect is a message dispatch to some module's handler. -/
def isDispatchEff : Effect → Bool
  | Effect.dispatchSpawn _ _ _ => true
  | _ => false

/-- The retained qos-1 "running" status publish of the scenario
configuration. -/
def runningPubEff : Effect :=
  Effect.publish (statusTopicOf scenarioCfg) (utf8Encode "run") 1 true

/-- Tests whether an effect is the scenario's "running" status publish. -/
def isRunningPubEff (e : Effect) : Bool := e == runningPubEff

/-! ## Interleaving model for the startup race (claim about dispatch vs the
"running" publish)

After `run_mqtt` executes `nursery.start_soon(handle_messages, client)`, the
receive loop runs as a task concurrent with the rest of `run_async`; Trio
may schedule it at any subsequent checkpoint (each `await module.init()` is
one).  An execution of startup is therefore the prefix of the supervisor
trace up to the spawn, followed by any interleaving of the rest of the
supervisor trace with the receive loop's dispatch trace. -/

/-- The successful-startup supervisor trace at the scenario configuration. -/
def mainStartup : List Effect := (runAsyncEffects scenarioCfg (fun _ => true)).1

/-- Split a trace just after its first `spawnHandleMessages` effect. -/
def splitAfterSpawn : List Effect → List Effect × List Effect
  | [] => ([], [])
  | e :: rest =>
    if e == Effect.spawnHandleMessages then ([e], rest)
    else
      let r := splitAfterSpawn rest
      (e :: r.1, r.2)

/-- The supervisor trace up to and including the spawn of the receive loop. -/
def mainPre5 : List Effect := (splitAfterSpawn mainStartup).1

/-- The supervisor trace after the spawn of the receive loop. -/
def mainPost5 : List Effect := (splitAfterSpawn mainStartup).2

/-- Checks that `zs` is an interleaving of `xs` and `ys` (order within each
preserved). -/
def interleaves : List Effect → List Effect → List Effect → Bool
  | [], [], [] => true
  | [], [], _ :: _ => false
  | _ :: _, _, [] => false
  | [], _ :: _, [] => false
  | x :: xs, [], z :: zs => x == z && interleaves xs [] zs
  | [], y :: ys, z :: zs => y == z && interleaves [] ys zs
  | x :: xs, y :: ys, z :: zs =>
    (x == z && interleaves xs (y :: ys) zs)
      || (y == z && interleaves (x :: xs) ys zs)

/-- A startup execution for incoming messages `msgs`: the supervisor prefix
up to the spawn, then any interleaving of the supervisor's remaining
effects with the receive loop's dispatch effects. -/
def validStartupExec (msgs : List Msg) (t : List Effect) : Prop :=
  ∃ rest, t = mainPre5 ++ rest
    ∧ interleaves mainPost5 (handleMessagesTrace msgs) rest = true

/-! ## Helper lemmas -/

theorem interleaves_countP (p : Effect → Bool) :
    ∀ (zs xs ys : List Effect), interleaves xs ys zs = true →
      zs.countP p = xs.countP p + ys.countP p := by
  intro zs
  induction zs with
  | nil =>
    intro xs ys h
    cases xs <;> cases ys <;> simp_all [interleaves]
  | cons z zs ih =>
    intro xs ys h
    cases xs with
    | nil =>
      cases ys with
      | nil => simp [interleaves] at h
      | cons y ys =>
        rw [interleaves] at h
        obtain ⟨h1, h2⟩ := Bool.and_eq_true_iff.mp h
        have hy : y = z := by simpa using h1
        subst hy
        simp [List.countP_cons, ih [] ys h2]
    | cons x xs =>
      cases ys with
      | nil =>
        rw [interleaves] at h
        obtain ⟨h1, h2⟩ := Bool.and_eq_true_iff.mp h
        have hx : x = z := by simpa using h1
        subst hx
        simp [List.countP_cons, ih xs [] h2]
      | cons y ys =>
        rw [interleaves] at h
        rcases Bool.or_eq_true_iff.mp h with h' | h'
        · obtain ⟨h1, h2⟩ := Bool.and_eq_true_iff.mp h'
          have hx : x = z := by simpa using h1
          subst hx
          simp [List.countP_cons, ih xs (y :: ys) h2]
          omega
        · obtain ⟨h1, h2⟩ := Bool.and_eq_true_iff.mp h'
          have hy : y = z := by simpa using h1
          subst hy
          simp [List.countP_cons, ih (x :: xs) ys h2]
          omega

theorem handleMessagesTrace_countP_dispatch (p : Effect → Bool)
    (hp : ∀ m top pay, p (Effect.dispatchSpawn m top pay) = false) :
    ∀ msgs : List Msg, (handleMessagesTrace msgs).countP p = 0 := by
  intro msgs
  induction msgs with
  | nil => rfl
  | cons m rest ih =>
    simp [handleMessagesTrace, ioModules, List.countP_cons, List.countP_append, hp, ih]

theorem handleMessagesTrace_length (msgs : List Msg) :
    (handleMessagesTrace msgs).length = 3 * msgs.length := by
  induction msgs with
  | nil => rfl
  | cons m rest ih =>
    simp [handleMessagesTrace, ioModules, ih]
    omega

/-! ## Further helper lemmas about the traces -/

theorem runMqttEffects_countP (p : Effect → Bool) (opts : MQTTClientOptions) (hd : Bool)
    (h1 : ∀ a b, p (Effect.constructClient a b) = false)
    (h2 : p Effect.enableLogger = false)
    (h3 : p Effect.tlsSetContext = false)
    (h4 : ∀ u pw, p (Effect.usernamePwSet u pw) = false)
    (h5 : ∀ a b c, p (Effect.connectCall a b c) = false)
    (h6 : ∀ a b c d, p (Effect.willSetCall a b c d) = false)
    (h7 : p Effect.spawnHandleMessages = false)
    (h8 : p Effect.haDiscoveryAnnounce = false)
    (h9 : p Effect.taskStarted = false) :
    (runMqttEffects opts hd).countP p = 0 := by
  rcases opts with ⟨ho, po, us, pw, cid, ka, cs, tl, wl⟩
  cases tl <;> cases us <;> cases wl <;> cases hd <;>
    simp [runMqttEffects, List.countP_cons, List.countP_append,
      h1, h2, h3, h4, h5, h6, h7, h8, h9]

theorem initLoop_countP (p : Effect → Bool) (hp : ∀ m, p (Effect.initCall m) = false)
    (ir : Module3 → Bool) :
    ∀ ms : List Module3, ((initLoop ir ms).1).countP p = 0 := by
  intro ms
  induction ms with
  | nil => rfl
  | cons m ms ih =>
    cases h : ir m <;> simp [initLoop, h, List.countP_cons, hp, ih]

theorem shutdownEffects_eq (cfg : ConfigMqtt) :
    shutdownEffects cfg = (shutdownPre cfg, true) := rfl

theorem handleSignalsTrace_nonempty (cfg : ConfigMqtt) (s : Nat) (sigs : List Nat) :
    handleSignalsTrace cfg (s :: sigs) false = shutdownPre cfg ++ [] := rfl

theorem shutdownPre_countP (p : Effect → Bool)
    (h1 : ∀ t pl q r, p (Effect.publish t pl q r) = false)
    (h2 : p Effect.waitForPublish = false)
    (h3 : p Effect.disconnectCall = false)
    (h4 : p Effect.waitDisconnectEvent = false)
    (h5 : p Effect.cancelMainScope = false)
    (cfg : ConfigMqtt) :
    (shutdownPre cfg).countP p = 0 := by
  simp [shutdownPre, List.countP_cons, h1, h2, h3, h4, h5]

/-! ## The claims -/

/-- Claim C1 is violated by the code: on a termination signal, `shutdown`
performs the retained qos-1 "stopped" publish, the wait for its delivery
confirmation, the `disconnect()`, the wait for the disconnect confirmation
and the cancellation of the main scope, in that order — the publish does
precede the disconnect — but then the claimed per-module cleanups never
execute: `shutdown` has just cancelled the scope it itself runs in, so the
first `await trio.to_thread.run_sync(io_module.cleanup)` raises `Cancelled`
at its entry checkpoint, before any `cleanup()` is invoked, and the body
aborts.  The trace evaluates to the five-effect prefix only, with zero
cleanup invocations for every module. -/
theorem C1_shutdown_cancelled_before_cleanup (cfg : ConfigMqtt) :
    shutdownEffects cfg =
      ([Effect.publish (statusTopicOf cfg) (utf8Encode cfg.statusPayloadStopped) 1 true,
        Effect.waitForPublish,
        Effect.disconnectCall,
        Effect.waitDisconnectEvent,
        Effect.cancelMainScope], true)
    ∧ (shutdownEffects cfg).1.findIdx isPublishEff
        < (shutdownEffects cfg).1.findIdx isDisconnectEff
    ∧ ∀ m : Module3, (shutdownEffects cfg).1.countP (isCleanupOf m) = 0 := by
  refine ⟨rfl, ?_, ?_⟩
  · simp [shutdownEffects_eq, shutdownPre, List.findIdx_cons,
      isPublishEff, isDisconnectEff]
  · intro m
    exact shutdownPre_countP (isCleanupOf m) (fun _ _ _ _ => rfl) rfl rfl rfl rfl cfg

/-- Claim C9: the constructed Will has topic `topic_prefix + "/" +
status_topic`, the UTF-8 bytes of the configured "dead" payload, qos 1 and
retain set; at the scenario configuration the Will topic is `"home/status"`
and the payload is `b"dead"`. -/
theorem C9_will_construction (cfg : ConfigMqtt) :
    (initMqttConfig cfg).will =
      some { topic := cfg.topicPref ++ "/" ++ cfg.statusTopic,
             payload := utf8Encode cfg.statusPayloadDead,
             qos := 1,
             retain := true }
    ∧ (initMqttConfig scenarioCfg).will =
      some { topic := "home/status",
             payload := [100, 101, 97, 100],
             qos := 1,
             retain := true } :=
  ⟨rfl, by decide⟩

/-- Claim C10: each of the `nursery`, `mqtt` and `trio_token` accessors
raises `RuntimeError` (with the source's message) while its backing field is
still `None`, and returns the stored instance once it is set. -/
theorem C10_accessor_guards (ν μ τ : Type) (s : ServerHandles ν μ τ)
    (n : ν) (c : μ) (t : τ) :
    (s.mainNursery = none →
      nurseryAcc s = Except.error "Nursery has not been initialised")
  ∧ (s.mainNursery = some n → nurseryAcc s = Except.ok n)
  ∧ (s.mqttClient = none → mqttAcc s = Except.error "MQTT is not initialised")
  ∧ (s.mqttClient = some c → mqttAcc s = Except.ok c)
  ∧ (s.trioTok = none →
      trioTokenAcc s = Except.error "Server has not yet been run()")
  ∧ (s.trioTok = some t → trioTokenAcc s = Except.ok t) := by
  refine ⟨?_, ?_, ?_, ?_, ?_, ?_⟩ <;>
    intro h <;> simp [nurseryAcc, mqttAcc, trioTokenAcc, h]

/-- Witness for C10 on concrete uninitialised and initialised states. -/
theorem C10_accessor_guards_witness :
    nurseryAcc (⟨none, none, none⟩ : ServerHandles Nat Nat Nat)
      = Except.error "Nursery has not been initialised"
  ∧ nurseryAcc (⟨some 1, some 2, some 3⟩ : ServerHandles Nat Nat Nat) = Except.ok 1
  ∧ mqttAcc (⟨none, none, none⟩ : ServerHandles Nat Nat Nat)
      = Except.error "MQTT is not initialised"
  ∧ mqttAcc (⟨some 1, some 2, some 3⟩ : ServerHandles Nat Nat Nat) = Except.ok 2
  ∧ trioTokenAcc (⟨none, none, none⟩ : ServerHandles Nat Nat Nat)
      = Except.error "Server has not yet been run()"
  ∧ trioTokenAcc (⟨some 1, some 2, some 3⟩ : ServerHandles Nat Nat Nat) = Except.ok 3 :=
  ⟨(C10_accessor_guards Nat Nat Nat ⟨none, none, none⟩ 0 0 0).1 rfl,
   (C10_accessor_guards Nat Nat Nat ⟨some 1, some 2, some 3⟩ 1 2 3).2.1 rfl,
   (C10_accessor_guards Nat Nat Nat ⟨none, none, none⟩ 0 0 0).2.2.1 rfl,
   (C10_accessor_guards Nat Nat Nat ⟨some 1, some 2, some 3⟩ 1 2 3).2.2.2.1 rfl,
   (C10_accessor_guards Nat Nat Nat ⟨none, none, none⟩ 0 0 0).2.2.2.2.1 rfl,
   (C10_accessor_guards Nat Nat Nat ⟨some 1, some 2, some 3⟩ 1 2 3).2.2.2.2.2 rfl⟩

set_option maxRecDepth 1000000 in
/-- Claim C8: whenever `client_id` is absent (`None`) or empty, the derived
client id is `"mqtt-io-"` followed by the SHA-1 hex digest of the UTF-8
encoded topic prefix; it is a deterministic function of the topic prefix;
and at the scenario configuration (prefix `"home"`, empty client id) it is
`"mqtt-io-" ++ sha1("home")`, concretely
`"mqtt-io-e83249bd3ba79932e16fb1fb5100dafade9954c2"`. -/
theorem C8_derived_client_id (cfg cfg2 : ConfigMqtt)
    (h : cfg.clientId = none ∨ cfg.clientId = some "")
    (h2 : cfg2.clientId = none ∨ cfg2.clientId = some "")
    (hp : cfg.topicPref = cfg2.topicPref) :
    (initMqttConfig cfg).clientId = "mqtt-io-" ++ sha1hex (utf8Encode cfg.topicPref)
  ∧ (initMqttConfig cfg).clientId = (initMqttConfig cfg2).clientId
  ∧ (initMqttConfig scenarioCfg).clientId = "mqtt-io-" ++ sha1hex (utf8Encode "home")
  ∧ (initMqttConfig scenarioCfg).clientId
      = "mqtt-io-e83249bd3ba79932e16fb1fb5100dafade9954c2" := by
  have key : ∀ c : ConfigMqtt, (c.clientId = none ∨ c.clientId = some "") →
      (initMqttConfig c).clientId = "mqtt-io-" ++ sha1hex (utf8Encode c.topicPref) := by
    intro c hc
    rcases hc with hc | hc <;> simp [initMqttConfig, hc]
  refine ⟨key cfg h, ?_, key scenarioCfg (Or.inr rfl), ?_⟩
  · rw [key cfg h, key cfg2 h2, hp]
  · rw [key scenarioCfg (Or.inr rfl)]
    decide

/-- Witness for C8 at the scenario configuration (client id `""`). -/
theorem C8_derived_client_id_witness :
    (initMqttConfig scenarioCfg).clientId
      = "mqtt-io-" ++ sha1hex (utf8Encode scenarioCfg.topicPref) :=
  (C8_derived_client_id scenarioCfg scenarioCfg (Or.inr rfl) (Or.inr rfl) rfl).1

/-- Claim C4 is violated by the code: in `run_mqtt`, the
`connect(host, port, keepalive)` call is issued strictly before the
`will_set(...)` call (lines 145 vs 146–152), so the Will is configured after
connect has been issued, not before.  Evaluated at the scenario
configuration: the connect effect occurs at a strictly smaller index of the
trace than the will-set effect, and each occurs exactly once. -/
theorem C4_connect_issued_before_will_set :
    (runMqttEffects (initMqttConfig scenarioCfg) scenarioCfg.haDiscovery).findIdx
        isConnectEff
      < (runMqttEffects (initMqttConfig scenarioCfg) scenarioCfg.haDiscovery).findIdx
        isWillSetEff
  ∧ (runMqttEffects (initMqttConfig scenarioCfg) scenarioCfg.haDiscovery).countP
        isConnectEff = 1
  ∧ (runMqttEffects (initMqttConfig scenarioCfg) scenarioCfg.haDiscovery).countP
        isWillSetEff = 1 := by
  decide

/-- Claim C2: at most one shutdown sequence executes per process lifetime,
and a second termination signal produces no further side effects.  The only
caller of `shutdown` is the signal-handler loop; the first shutdown cancels
the main scope and is itself then aborted by `Cancelled` at its first
cleanup await, and that exception — or, had the body completed, the now
cancelled scope's next `async for` checkpoint — ends the loop before any
later signal is processed.  Hence for every configuration and signal
sequence the handler's trace holds at most one "stopped" publish, at most
one disconnect and no cleanup at all, and the trace for a signal followed
by any further signals equals the trace for that first signal alone: the
second invocation never happens and contributes no publish, disconnect or
cleanup. -/
theorem C2_at_most_one_shutdown (cfg : ConfigMqtt) (sigs : List Nat) :
    (handleSignalsTrace cfg sigs false).countP isPublishEff ≤ 1
  ∧ (handleSignalsTrace cfg sigs false).countP isDisconnectEff ≤ 1
  ∧ (∀ m : Module3,
      (handleSignalsTrace cfg sigs false).countP (isCleanupOf m) = 0)
  ∧ ∀ (s : Nat) (rest : List Nat),
      handleSignalsTrace cfg (s :: rest) false
        = handleSignalsTrace cfg [s] false := by
  refine ⟨?_, ?_, ?_, fun s rest => rfl⟩
  · cases sigs with
    | nil => simp [handleSignalsTrace]
    | cons s rest =>
      rw [handleSignalsTrace_nonempty]
      simp [shutdownPre, List.countP_append, List.countP_cons, isPublishEff]
  · cases sigs with
    | nil => simp [handleSignalsTrace]
    | cons s rest =>
      rw [handleSignalsTrace_nonempty]
      simp [shutdownPre, List.countP_append, List.countP_cons, isDisconnectEff]
  · intro m
    cases sigs with
    | nil => simp [handleSignalsTrace]
    | cons s rest =>
      rw [handleSignalsTrace_nonempty]
      simp [List.countP_append,
        shutdownPre_countP (isCleanupOf m) (fun _ _ _ _ => rfl) rfl rfl rfl rfl cfg]

/-- Counterexample to claim C3 as stated: in the process run where
`gpio.init()` raises and no termination signal arrives, startup aborts
(`run_async` fails) and no module's `cleanup()` is ever invoked — not
"exactly once". -/
theorem C3_init_failure_skips_cleanup :
    (processEffects scenarioCfg (fun _ => false) []).countP
        (isCleanupOf Module3.digital) = 0
  ∧ (processEffects scenarioCfg (fun _ => false) []).countP
        (isCleanupOf Module3.sensor) = 0
  ∧ (processEffects scenarioCfg (fun _ => false) []).countP
        (isCleanupOf Module3.stream) = 0
  ∧ (runAsyncEffects scenarioCfg (fun _ => false)).2 = false := by
  decide

/-- Claim C3, amended: no module's `cleanup()` is ever invoked, in any
process lifetime.  The startup path contains no cleanup call (`run_async`'s
`finally:` only logs), and on the signal path — the only caller of
`shutdown` — the cleanup loop is never reached: its first
`await trio.to_thread.run_sync(io_module.cleanup)` raises `Cancelled` at
its entry checkpoint, inside the scope `shutdown` has just cancelled.  For
every configuration, init behaviour and signal sequence, the whole-process
trace holds zero cleanup invocations. -/
theorem C3_cleanup_never_invoked (cfg : ConfigMqtt) (ir : Module3 → Bool)
    (sigs : List Nat) (m : Module3) :
    (processEffects cfg ir sigs).countP (isCleanupOf m) = 0 := by
  have hmqtt : (runMqttEffects (initMqttConfig cfg) cfg.haDiscovery).countP
      (isCleanupOf m) = 0 :=
    runMqttEffects_countP _ _ _ (fun _ _ => rfl) rfl rfl (fun _ _ => rfl)
      (fun _ _ _ => rfl) (fun _ _ _ _ => rfl) rfl rfl rfl
  have hinit : ((initLoop ir ioModules).1).countP (isCleanupOf m) = 0 :=
    initLoop_countP _ (fun _ => rfl) ir ioModules
  have hrun : ((runAsyncEffects cfg ir).1).countP (isCleanupOf m) = 0 := by
    unfold runAsyncEffects
    cases hr : (initLoop ir ioModules).2 <;>
      simp_all [List.countP_append, List.countP_cons, isCleanupOf]
  have hsig : (handleSignalsTrace cfg sigs false).countP (isCleanupOf m) = 0 := by
    cases sigs with
    | nil => simp [handleSignalsTrace]
    | cons s rest =>
      rw [handleSignalsTrace_nonempty]
      simp [List.countP_append,
        shutdownPre_countP (isCleanupOf m) (fun _ _ _ _ => rfl) rfl rfl rfl rfl cfg]
  simp [processEffects, List.countP_append, hrun, hsig]

/-- Claim C6 is violated by the code: the claimed local recovery from a
`cleanup()` error does not exist.  The cleanup loop in `shutdown`
(lines 87–89) contains no `try`/`except`, and it is in fact unreachable:
the scope `shutdown` runs in has just been cancelled, so the loop's first
`await trio.to_thread.run_sync(io_module.cleanup)` raises `Cancelled` at
its entry checkpoint — no module's `cleanup` is ever invoked during the
shutdown sequence, so no cleanup error can arise there, let alone be
logged and recovered while the remaining cleanups continue.  Evaluated at
the scenario configuration: the shutdown trace holds zero cleanup
invocations for every module, and the body aborts cancelled. -/
theorem C6_no_cleanup_no_recovery :
    (shutdownEffects scenarioCfg).1.countP (isCleanupOf Module3.digital) = 0
  ∧ (shutdownEffects scenarioCfg).1.countP (isCleanupOf Module3.sensor) = 0
  ∧ (shutdownEffects scenarioCfg).1.countP (isCleanupOf Module3.stream) = 0
  ∧ (shutdownEffects scenarioCfg).2 = true := by
  decide

/-- Claim C7: the receive loop dispatches every incoming message to every
registered module: the trace has exactly one spawn per (message, module)
pair, laid out in broker delivery order with the three modules in
registration order inside each message — the spawn for message `i` and
module `j` sits at position `3 * i + j`.  Each dispatch is a
`start_soon` spawn (fire-and-forget), never an await of the handler. -/
theorem C7_fanout_order (msgs : List Msg) (i j : Nat)
    (hi : i < msgs.length) (hj : j < 3) :
    (handleMessagesTrace msgs).length = 3 * msgs.length
  ∧ (handleMessagesTrace msgs)[3 * i + j]?
      = some (Effect.dispatchSpawn (ioModules.getD j Module3.digital)
          ((msgs.getD i ⟨"", []⟩).topic) ((msgs.getD i ⟨"", []⟩).payload)) := by
  refine ⟨handleMessagesTrace_length msgs, ?_⟩
  induction msgs generalizing i with
  | nil => exact absurd hi (Nat.not_lt_zero i)
  | cons m rest ih =>
    have hsplit : handleMessagesTrace (m :: rest)
        = (ioModules.map fun md => Effect.dispatchSpawn md m.topic m.payload)
          ++ handleMessagesTrace rest := rfl
    have hlen3 : (ioModules.map
        fun md => Effect.dispatchSpawn md m.topic m.payload).length = 3 := rfl
    cases i with
    | zero =>
      rw [hsplit, List.getElem?_append_left (by rw [hlen3]; omega),
        List.getElem?_map]
      interval_cases j <;> rfl
    | succ i2 =>
      rw [hsplit, List.getElem?_append_right (by rw [hlen3]; omega)]
      have hidx : 3 * (i2 + 1) + j
          - (ioModules.map fun md => Effect.dispatchSpawn md m.topic m.payload).length
          = 3 * i2 + j := by rw [hlen3]; omega
      rw [hidx]
      have hi2 : i2 < rest.length := by simpa using Nat.lt_of_succ_lt_succ hi
      have := ih i2 hi2
      simpa [List.getD] using this

/-- Witness for C7 on two concrete messages: the fifth trace entry is the
dispatch of the second message to the third (stream) module. -/
theorem C7_fanout_order_witness :
    (handleMessagesTrace [⟨"home/a", [1]⟩, ⟨"home/b", [2]⟩]).length = 6
  ∧ (handleMessagesTrace [⟨"home/a", [1]⟩, ⟨"home/b", [2]⟩])[5]?
      = some (Effect.dispatchSpawn Module3.stream "home/b" [2]) := by
  have h := C7_fanout_order [⟨"home/a", [1]⟩, ⟨"home/b", [2]⟩] 1 2
    (by decide) (by decide)
  exact ⟨h.1, h.2⟩

/-- A concrete incoming broker message used in the startup-race
counterexample. -/
def badMsg : Msg := ⟨"home/sensor", [49]⟩

/-- A startup execution in which the receive loop runs (and fans out one
message) right after it is spawned, before the module inits and before the
"running" publish. -/
def badStartupTrace : List Effect :=
  mainPre5 ++ (handleMessagesTrace [badMsg] ++ mainPost5)

/-- Counterexample to claim C5 as stated: `run_mqtt` spawns the receive
loop before `run_async` publishes the "running" status, so there is a valid
startup execution (a legal interleaving of the supervisor task with the
spawned receive loop) in which a message is dispatched to the modules
strictly before the "running" publish occurs. -/
theorem C5_dispatch_can_precede_running_publish :
    validStartupExec [badMsg] badStartupTrace
  ∧ badStartupTrace.findIdx isDispatchEff
      < badStartupTrace.findIdx isRunningPubEff
  ∧ badStartupTrace.countP isDispatchEff = 3
  ∧ badStartupTrace.countP isRunningPubEff = 1 :=
  ⟨⟨handleMessagesTrace [badMsg] ++ mainPost5, rfl, by decide⟩,
    by decide, by decide, by decide⟩

/-- Claim C5, amended: on successful startup exactly one retained qos-1
"running" publish occurs — in every valid startup execution the trace
contains the "running" publish exactly once — but it is not ordered before
message dispatch: the receive loop is spawned earlier, so dispatches may
precede the publish (see the counterexample theorem). -/
theorem C5_exactly_one_running_publish (msgs : List Msg) (t : List Effect)
    (h : validStartupExec msgs t) :
    t.countP isRunningPubEff = 1 := by
  obtain ⟨rest, ht, hint⟩ := h
  subst ht
  rw [List.countP_append,
    interleaves_countP isRunningPubEff rest mainPost5 (handleMessagesTrace msgs) hint]
  have h1 : mainPre5.countP isRunningPubEff = 0 := by decide
  have h2 : mainPost5.countP isRunningPubEff = 1 := by decide
  have h3 : (handleMessagesTrace msgs).countP isRunningPubEff = 0 :=
    handleMessagesTrace_countP_dispatch _ (fun _ _ _ => rfl) msgs
  omega

/-- Witness for C5 (amended) on the dispatch-free execution. -/
theorem C5_exactly_one_running_publish_witness :
    (mainPre5 ++ mainPost5).countP isRunningPubEff = 1 :=
  C5_exactly_one_running_publish [] (mainPre5 ++ mainPost5)
    ⟨mainPost5, rfl, by decide⟩

end MqttIoServer
